import Mathlib

/-!
Shallow embedding of the Madrassati Pro server (src/server.js).

The server is an Express/PostgreSQL application.  We model its database as
an explicit record of tables (lists of rows, in insertion order — SERIAL
ids grow with the list) and each HTTP route as a function from a database
state and the request fields to the new database state and the JSON
response.  SELECT queries are reads of the state; INSERT/UPDATE/DELETE
produce a new state.  The PRIMARY KEY on access_requests.student_id is
modelled where it acts: an INSERT into access_requests that collides with
an existing row raises a uniqueness violation, which the route's catch
block turns into a 500 server-error response with no state change.
-/

namespace Madrassati

/-- The status column of access_requests.  The column is TEXT in SQL but the
server only ever writes these three values (PENDING on insert default and
first contact, APPROVED and REJECTED in the admin routes). -/
inductive Status where
  | PENDING
  | APPROVED
  | REJECTED
deriving DecidableEq, Repr

/-- A row of the students table: `id SERIAL PRIMARY KEY, name TEXT,
code TEXT UNIQUE, school_id INTEGER` (school_id is never read by the
core routes and is omitted). -/
structure Student where
  id : Nat
  name : String
  code : String
deriving DecidableEq, Repr

/-- A row of access_requests: `student_id INTEGER PRIMARY KEY, device_id TEXT,
status TEXT DEFAULT PENDING, message TEXT, request_date TIMESTAMP DEFAULT
CURRENT_TIMESTAMP`.  `message` is nullable. -/
structure AccessRequest where
  student_id : Nat
  device_id : String
  status : Status
  message : Option String
  request_date : Nat
deriving DecidableEq, Repr

/-- A row of grades: the student_id column is TEXT and in fact stores the
student's code (both /api/grades inserts and the my-grades lookup use the
code). -/
structure Grade where
  student_id : String
  subject : String
  score : Int
deriving DecidableEq, Repr

/-- A row of absences (student_id TEXT holds the student's code). -/
structure Absence where
  student_id : String
  date : String
  reason : String
deriving DecidableEq, Repr

/-- A row of notifications; target_id is a student code or the literal ALL. -/
structure Notification where
  type : String
  title : String
  message : String
  target_id : String
deriving DecidableEq, Repr

/-- The database state.  `now` models CURRENT_TIMESTAMP, used as the
request_date default on insert into access_requests. -/
structure DB where
  students : List Student
  requests : List AccessRequest
  grades : List Grade
  absences : List Absence
  notifications : List Notification
  now : Nat
deriving DecidableEq, Repr

/-- `SELECT id, name FROM students WHERE code = $1` (rows[0]). -/
def findStudent (st : DB) (code : String) : Option Student :=
  st.students.find? (fun s => s.code == code)

/-- `SELECT code FROM students WHERE id = $1` (rows[0]). -/
def findStudentById (st : DB) (sid : Nat) : Option Student :=
  st.students.find? (fun s => s.id == sid)

/-- `SELECT ... FROM access_requests WHERE student_id = $1` (rows[0]). -/
def findRequest (st : DB) (sid : Nat) : Option AccessRequest :=
  st.requests.find? (fun r => r.student_id == sid)

/-- The student object of a successful /api/login response:
`{ id, full_name, secret_code, status, message? }`. -/
structure LoginStudent where
  id : Nat
  full_name : String
  secret_code : String
  status : Status
  message : Option String
deriving DecidableEq, Repr

/-- The /api/login response: `{success:true, student}`, `{success:false,
message}`, or the catch block's 500 `{success:false, message:"Erreur
serveur lors de la connexion."}`. -/
inductive LoginResult where
  | success (student : LoginStudent)
  | failure (message : String)
  | serverError
deriving DecidableEq, Repr

/-- The second half of the /api/login handler: what happens after the
access_requests row has been read into `request` (rows[0], here `snap`).
Splitting the handler at this point lets the concurrent interleaving of two
logins be expressed; the sequential route runs both halves back to back.
On the `snap = none` branch the handler issues
`INSERT INTO access_requests (student_id, device_id, status) VALUES
($1,$2,PENDING)`; if a row for this student_id already exists by insert
time, the PRIMARY KEY makes the INSERT raise, the catch block answers 500
and the transactionless statement leaves the table unchanged. -/
def loginPhase2 (st : DB) (s : Student) (code device_id : String)
    (snap : Option AccessRequest) : DB × LoginResult :=
  match snap with
  | none =>
    if st.requests.any (fun r => r.student_id == s.id) then
      (st, .serverError)
    else
      ({ st with requests :=
          st.requests ++ [⟨s.id, device_id, Status.PENDING, none, st.now⟩] },
       .success ⟨s.id, s.name, code, Status.PENDING, none⟩)
  | some request =>
    if request.device_id == device_id then
      if request.status = Status.REJECTED then
        (st, .success ⟨s.id, s.name, code, Status.REJECTED, request.message⟩)
      else
        (st, .success ⟨s.id, s.name, code, request.status, none⟩)
    else
      (st, .failure "Ce code est déjà lié à un autre téléphone.")

/-- POST /api/login with body `{code, device_id}`. -/
def login (st : DB) (code device_id : String) : DB × LoginResult :=
  match findStudent st code with
  | none => (st, .failure "Code matricule incorrect")
  | some s => loginPhase2 st s code device_id (findRequest st s.id)

/-- The body of a my-grades view response (unlocked responses carry no
`rejected`/`reject_reason` fields, hence the Option). -/
structure StudentView where
  locked : Bool
  rejected : Option Bool
  reject_reason : Option String
  notifications : List Notification
  absences : List Absence
  grades : List Grade
deriving DecidableEq, Repr

/-- The /api/my-grades/:id response: either `{error: ...}` or a view. -/
inductive ViewResult where
  | error (msg : String)
  | view (v : StudentView)
deriving DecidableEq, Repr

/-- GET /api/my-grades/:id.  All queries are SELECTs.  The handler reads the
access_requests row first, computes isApproved/isRejected/rejectionMsg,
then resolves the student (answering `{error}` if absent), queries
notifications (target_id = code OR ALL, ORDER BY id DESC — the reverse of
insertion order) and absences, and gates grades on isApproved.
`rejectionMsg` mirrors `(access && access.message) ? access.message : ''`
(a NULL message — and likewise an empty string, falsy in JS — yields ''). -/
def fetchStudentView (st : DB) (sid : Nat) : DB × ViewResult :=
  let access := findRequest st sid
  let isApproved : Bool := match access with
    | some a => decide (a.status = Status.APPROVED)
    | none => false
  let isRejected : Bool := match access with
    | some a => decide (a.status = Status.REJECTED)
    | none => false
  let rejectionMsg := ((access.bind (fun a => a.message)).getD "")
  match findStudentById st sid with
  | none => (st, .error "Élève introuvable")
  | some student =>
    let code := student.code
    let notifs := (st.notifications.filter
      (fun n => n.target_id == code || n.target_id == "ALL")).reverse
    let absences := st.absences.filter (fun a => a.student_id == code)
    if isApproved then
      (st, .view ⟨false, none, none, notifs, absences,
        st.grades.filter (fun g => g.student_id == code)⟩)
    else
      (st, .view ⟨true, some isRejected, some rejectionMsg,
        notifs, absences, []⟩)

/-- POST /api/admin/approve: `UPDATE access_requests SET status=APPROVED,
message = NULL WHERE student_id = $1`, then `{success:true}` regardless of
how many rows matched. -/
def approve (st : DB) (sid : Nat) : DB × Bool :=
  ({ st with requests := st.requests.map (fun r =>
      if r.student_id == sid then
        { r with status := Status.APPROVED, message := none }
      else r) },
   true)

/-- POST /api/admin/reject: `UPDATE access_requests SET status=REJECTED,
message = $1 WHERE student_id = $2`, then `{success:true}`. -/
def reject (st : DB) (sid : Nat) (reason : String) : DB × Bool :=
  ({ st with requests := st.requests.map (fun r =>
      if r.student_id == sid then
        { r with status := Status.REJECTED, message := some reason }
      else r) },
   true)

/-- POST /api/admin/reset: `DELETE FROM access_requests WHERE
student_id = $1`, then `{success:true}`. -/
def reset (st : DB) (sid : Nat) : DB × Bool :=
  ({ st with requests := st.requests.filter (fun r => !(r.student_id == sid)) },
   true)

/-- The core operations of the Access Broker, for statements quantifying
over "any operation". -/
inductive Op where
  | login (code device_id : String)
  | approve (sid : Nat)
  | reject (sid : Nat) (reason : String)
  | reset (sid : Nat)
  | fetchView (sid : Nat)
deriving DecidableEq, Repr

/-- State effect of one operation. -/
def applyOp (st : DB) : Op → DB
  | .login code device_id => (login st code device_id).1
  | .approve sid => (approve st sid).1
  | .reject sid reason => (reject st sid reason).1
  | .reset sid => (reset st sid).1
  | .fetchView sid => (fetchStudentView st sid).1

/-- The check-then-act race of two first logins, in the interleaving where
both handlers perform their SELECT on access_requests before either INSERT
runs (read₁, read₂, act₁, act₂).  The students table is never written by
login, so reading it early or late is indifferent and only the
access_requests snapshot is interleaving-sensitive. -/
def concurrentFirstLogins (st : DB) (code d1 d2 : String) :
    DB × LoginResult × LoginResult :=
  match findStudent st code with
  | none => (st, .failure "Code matricule incorrect",
                 .failure "Code matricule incorrect")
  | some s =>
    let snap1 := findRequest st s.id
    let snap2 := findRequest st s.id
    let p1 := loginPhase2 st s code d1 snap1
    let p2 := loginPhase2 p1.1 s code d2 snap2
    (p2.1, p1.2, p2.2)

/-- Database well-formedness, as enforced by the SQL schema: students.id is
a PRIMARY KEY, students.code is UNIQUE, access_requests.student_id is a
PRIMARY KEY. -/
def DB.WF (st : DB) : Prop :=
  st.students.Pairwise (fun a b => a.id ≠ b.id ∧ a.code ≠ b.code) ∧
  st.requests.Pairwise (fun a b => a.student_id ≠ b.student_id)

instance (st : DB) : Decidable st.WF := by
  unfold DB.WF; infer_instance

/-- Reachability invariant: the server clears `message` whenever it sets
status to APPROVED, so an APPROVED row never carries a message. -/
def Inv (st : DB) : Prop :=
  ∀ r ∈ st.requests, r.status = Status.APPROVED → r.message = none

instance (st : DB) : Decidable (Inv st) := by
  unfold Inv; infer_instance

/-! ## List helpers -/

theorem map_id_of_mem {α : Type} {l : List α} {f : α → α}
    (h : ∀ x ∈ l, f x = x) : l.map f = l := by
  induction l with
  | nil => rfl
  | cons a t ih =>
    simp only [List.map_cons, h a (List.mem_cons_self a t),
      ih (fun x hx => h x (List.mem_cons_of_mem a hx))]

theorem find?_map_of_pred {α : Type} (f : α → α) (p : α → Bool) (l : List α)
    (hp : ∀ x, p (f x) = p x) : (l.map f).find? p = (l.find? p).map f := by
  induction l with
  | nil => rfl
  | cons a t ih =>
    by_cases ha : p a = true
    · rw [List.map_cons, List.find?_cons_of_pos _ (by rw [hp]; exact ha),
        List.find?_cons_of_pos _ ha]
      rfl
    · rw [List.map_cons, List.find?_cons_of_neg _ (by rw [hp]; exact ha),
        List.find?_cons_of_neg _ ha]
      exact ih

theorem find?_eq_some_unique {α : Type} {p : α → Bool} {l : List α} {x : α}
    (hx : x ∈ l) (hpx : p x = true)
    (huniq : ∀ y ∈ l, p y = true → y = x) : l.find? p = some x := by
  induction l with
  | nil => cases hx
  | cons a t ih =>
    by_cases hpa : p a = true
    · rw [List.find?_cons_of_pos _ hpa, huniq a (List.mem_cons_self a t) hpa]
    · have hxt : x ∈ t := by
        rcases List.mem_cons.mp hx with rfl | h
        · exact absurd hpx hpa
        · exact h
      rw [List.find?_cons_of_neg _ hpa]
      exact ih hxt (fun y hy hpy => huniq y (List.mem_cons_of_mem a hy) hpy)

theorem find?_filter_none {α : Type} {p q : α → Bool} (l : List α)
    (h : ∀ x, p x = true → q x = false) : (l.filter q).find? p = none := by
  apply List.find?_eq_none.mpr
  intro x hx hpx
  have hq := (List.mem_filter.mp hx).2
  rw [h x hpx] at hq
  cases hq

/-! ## Uniqueness consequences of the SQL schema -/

theorem student_unique_id {st : DB} (hwf : st.WF) {x y : Student}
    (hx : x ∈ st.students) (hy : y ∈ st.students) (hid : x.id = y.id) :
    x = y := by
  by_contra hne
  exact (List.Pairwise.forall
    (fun a b hab => ⟨Ne.symm hab.1, Ne.symm hab.2⟩) hwf.1 hx hy hne).1 hid

theorem request_unique_sid {st : DB} (hwf : st.WF) {x y : AccessRequest}
    (hx : x ∈ st.requests) (hy : y ∈ st.requests)
    (hid : x.student_id = y.student_id) : x = y := by
  by_contra hne
  exact (List.Pairwise.forall
    (fun a b hab => Ne.symm hab) hwf.2 hx hy hne) hid

theorem findStudentById_eq {st : DB} (hwf : st.WF) {s : Student}
    (hs : s ∈ st.students) : findStudentById st s.id = some s := by
  apply find?_eq_some_unique hs (by simp)
  intro y hy hpy
  exact student_unique_id hwf hy hs (by simpa using hpy)

theorem findStudent_eq {st : DB} (hwf : st.WF) {s : Student}
    (hs : s ∈ st.students) : findStudent st s.code = some s := by
  apply find?_eq_some_unique hs (by simp)
  intro y hy hpy
  by_contra hne
  exact (List.Pairwise.forall
    (fun a b hab => ⟨Ne.symm hab.1, Ne.symm hab.2⟩) hwf.1 hy hs hne).2
    (by simpa using hpy)

theorem findRequest_eq {st : DB} (hwf : st.WF) {r : AccessRequest}
    (hr : r ∈ st.requests) : findRequest st r.student_id = some r := by
  apply find?_eq_some_unique hr (by simp)
  intro y hy hpy
  exact request_unique_sid hwf hy hr (by simpa using hpy)

/-! ## Small facts about the routes -/

/-- When the access_requests row is already there, the second half of the
login handler performs no write on any branch. -/
theorem loginPhase2_some_fst (st : DB) (s : Student) (c d : String)
    (r : AccessRequest) : (loginPhase2 st s c d (some r)).1 = st := by
  unfold loginPhase2
  by_cases h1 : (r.device_id == d) = true
  · by_cases h2 : r.status = Status.REJECTED
    · simp [h1, h2]
    · simp [h1, h2]
  · simp [h1]

/-- GET /api/my-grades/:id only performs SELECT queries. -/
theorem fetchStudentView_fst (st : DB) (sid : Nat) :
    (fetchStudentView st sid).1 = st := by
  unfold fetchStudentView
  cases h : findStudentById st sid with
  | none => simp [h]
  | some s =>
    by_cases ha : (match findRequest st sid with
      | some a => decide (a.status = Status.APPROVED)
      | none => false) = true
    · simp only [h, ha]
      simp
    · simp only [h]
      simp [ha]

/-- What the two UPDATE routes do to a lookup: the row, if found, passes
through the per-row update function (which never touches student_id). -/
theorem findRequest_approve (st : DB) (sid sid2 : Nat) :
    findRequest (approve st sid).1 sid2 =
      (findRequest st sid2).map (fun r =>
        if r.student_id == sid then
          { r with status := Status.APPROVED, message := none } else r) := by
  unfold approve findRequest
  apply find?_map_of_pred
  intro x
  by_cases h : (x.student_id == sid) = true <;> simp [h]

theorem findRequest_reject (st : DB) (sid : Nat) (reason : String)
    (sid2 : Nat) :
    findRequest (reject st sid reason).1 sid2 =
      (findRequest st sid2).map (fun r =>
        if r.student_id == sid then
          { r with status := Status.REJECTED, message := some reason } else r) := by
  unfold reject findRequest
  apply find?_map_of_pred
  intro x
  by_cases h : (x.student_id == sid) = true <;> simp [h]

/-- After DELETE FROM access_requests WHERE student_id = sid, the lookup for
sid finds nothing. -/
theorem findRequest_reset_self (st : DB) (sid : Nat) :
    findRequest (reset st sid).1 sid = none := by
  unfold reset findRequest
  apply find?_filter_none
  intro x hx
  simp [hx]

/-- The first-contact branch of /api/login: an unknown access_requests row
means an INSERT of a PENDING binding for the requesting device. -/
theorem login_fresh (st : DB) (code D : String) (s : Student)
    (hs : findStudent st code = some s)
    (hr : findRequest st s.id = none) :
    login st code D =
      ({ st with requests :=
          st.requests ++ [⟨s.id, D, Status.PENDING, none, st.now⟩] },
       LoginResult.success ⟨s.id, s.name, code, Status.PENDING, none⟩) := by
  have hany : (st.requests.any (fun r => r.student_id == s.id)) = false := by
    apply List.any_eq_false.mpr
    intro x hx
    exact List.find?_eq_none.mp hr x hx
  unfold login
  rw [hs]
  dsimp only
  rw [hr]
  unfold loginPhase2
  simp [hany]

/-! ## Concrete fixtures (used by the closed-form corollaries) -/

def alice : Student := ⟨1, "Alice", "AB-1234"⟩

/-- One student, no access request yet. -/
def db0 : DB := ⟨[alice], [], [], [], [], 5⟩

def reqPending : AccessRequest := ⟨1, "dev1", Status.PENDING, none, 3⟩

/-- One student with a PENDING binding to dev1. -/
def db1 : DB := ⟨[alice], [reqPending], [], [], [], 5⟩

def reqApproved : AccessRequest := ⟨1, "dev1", Status.APPROVED, none, 3⟩

/-- One student with an APPROVED binding to dev1, plus one grade, one
absence and one broadcast notification. -/
def db2 : DB :=
  ⟨[alice], [reqApproved],
   [⟨"AB-1234", "Maths", 17⟩],
   [⟨"AB-1234", "2024-01-01", "maladie"⟩],
   [⟨"INFO", "Rentrée", "Bonne rentrée", "ALL"⟩], 5⟩

/-- No students at all, but a broadcast notification is on file. -/
def dbNoStudent : DB := ⟨[], [], [], [], [⟨"INFO", "t", "m", "ALL"⟩], 0⟩

/-! ## Claims -/

/-- C1: for a code resolving to a student with no existing AccessRequest,
attemptLogin(code, D) inserts exactly one PENDING row bound to D and answers
success with status PENDING; and any later attemptLogin with the same code
and a device different from the stored one answers the DEVICE_MISMATCH
failure and leaves the state (stored device_id and status included)
unchanged. -/
theorem C1_first_contact_creates_pending_binding
    (st : DB) (code D : String) (s : Student)
    (hs : findStudent st code = some s)
    (hr : findRequest st s.id = none) :
    (login st code D).2 =
      LoginResult.success ⟨s.id, s.name, code, Status.PENDING, none⟩ ∧
    (login st code D).1.requests =
      st.requests ++ [⟨s.id, D, Status.PENDING, none, st.now⟩] ∧
    findRequest (login st code D).1 s.id =
      some ⟨s.id, D, Status.PENDING, none, st.now⟩ ∧
    ∀ (st2 : DB) (s2 : Student) (r2 : AccessRequest) (D2 : String),
      findStudent st2 code = some s2 →
      findRequest st2 s2.id = some r2 →
      D2 ≠ r2.device_id →
      login st2 code D2 =
        (st2, LoginResult.failure "Ce code est déjà lié à un autre téléphone.") := by
  have hlog := login_fresh st code D s hs hr
  refine ⟨by rw [hlog], by rw [hlog], ?_, ?_⟩
  · rw [hlog]
    unfold findRequest at hr ⊢
    rw [List.find?_append, hr]
    simp
  · intro st2 s2 r2 D2 hs2 hr2 hD2
    have hbeq : (r2.device_id == D2) = false := by
      simp only [beq_eq_false_iff_ne, ne_eq]
      exact fun h => hD2 h.symm
    unfold login
    rw [hs2]
    dsimp only
    rw [hr2]
    unfold loginPhase2
    simp [hbeq]

/-- C1 at a concrete input: Alice with fresh code AB-1234 logging in from
dev1 on an empty access_requests table. -/
theorem C1_witness :
    findStudent db0 "AB-1234" = some alice ∧
    findRequest db0 alice.id = none ∧
    ((login db0 "AB-1234" "dev1").2 =
        LoginResult.success ⟨alice.id, alice.name, "AB-1234", Status.PENDING, none⟩ ∧
      (login db0 "AB-1234" "dev1").1.requests =
        db0.requests ++ [⟨alice.id, "dev1", Status.PENDING, none, db0.now⟩] ∧
      findRequest (login db0 "AB-1234" "dev1").1 alice.id =
        some ⟨alice.id, "dev1", Status.PENDING, none, db0.now⟩ ∧
      ∀ (st2 : DB) (s2 : Student) (r2 : AccessRequest) (D2 : String),
        findStudent st2 "AB-1234" = some s2 →
        findRequest st2 s2.id = some r2 →
        D2 ≠ r2.device_id →
        login st2 "AB-1234" D2 =
          (st2, LoginResult.failure "Ce code est déjà lié à un autre téléphone.")) :=
  ⟨by decide, by decide,
   C1_first_contact_creates_pending_binding db0 "AB-1234" "dev1" alice
     (by decide) (by decide)⟩

/-- C3: a login with the bound device is a pure read: the state (hence the
stored device_id, status, message and request_date) is untouched and the
response carries the stored status verbatim, with the stored message exactly
when the status is REJECTED. -/
theorem C3_same_device_login_pure_read
    (st : DB) (code D : String) (s : Student) (r : AccessRequest)
    (hs : findStudent st code = some s)
    (hr : findRequest st s.id = some r)
    (hd : r.device_id = D) :
    login st code D =
      (st, LoginResult.success ⟨s.id, s.name, code, r.status,
        if r.status = Status.REJECTED then r.message else none⟩) := by
  have hbeq : (r.device_id == D) = true := by simp [hd]
  unfold login
  rw [hs]
  dsimp only
  rw [hr]
  unfold loginPhase2
  by_cases h2 : r.status = Status.REJECTED
  · simp [hbeq, h2]
  · simp [hbeq, h2]

/-- C3 at a concrete input: Alice re-logging in from dev1 while PENDING. -/
theorem C3_witness :
    findStudent db1 "AB-1234" = some alice ∧
    findRequest db1 alice.id = some reqPending ∧
    reqPending.device_id = "dev1" ∧
    login db1 "AB-1234" "dev1" =
      (db1, LoginResult.success ⟨alice.id, alice.name, "AB-1234",
        reqPending.status,
        if reqPending.status = Status.REJECTED then reqPending.message
        else none⟩) :=
  ⟨by decide, by decide, by decide,
   C3_same_device_login_pure_read db1 "AB-1234" "dev1" alice reqPending
     (by decide) (by decide) (by decide)⟩

/-- C8: approve and reject against a student with no AccessRequest row
change nothing anywhere and still answer success. -/
theorem C8_admin_noop_on_missing_row (st : DB) (sid : Nat) (reason : String)
    (hr : findRequest st sid = none) :
    approve st sid = (st, true) ∧ reject st sid reason = (st, true) := by
  have hnone : ∀ x ∈ st.requests, (x.student_id == sid) = false := by
    intro x hx
    have h := List.find?_eq_none.mp hr x hx
    simpa using h
  constructor
  · unfold approve
    rw [map_id_of_mem (fun x hx => by simp [hnone x hx])]
  · unfold reject
    rw [map_id_of_mem (fun x hx => by simp [hnone x hx])]

/-- C8 at a concrete input: approving and rejecting student 1, who has no
AccessRequest row in db0. -/
theorem C8_witness :
    findRequest db0 1 = none ∧
    (approve db0 1 = (db0, true) ∧ reject db0 1 "motif" = (db0, true)) :=
  ⟨by decide, C8_admin_noop_on_missing_row db0 1 "motif" (by decide)⟩

/-- C9: an unknown code yields a non-success response whose message differs
from the device-mismatch message, and the state is unchanged. -/
theorem C9_unknown_code_no_state_change (st : DB) (code D : String)
    (hs : findStudent st code = none) :
    login st code D = (st, LoginResult.failure "Code matricule incorrect") ∧
    ("Code matricule incorrect" : String) ≠
      "Ce code est déjà lié à un autre téléphone." := by
  constructor
  · unfold login
    rw [hs]
  · decide

/-- C9 at a concrete input: the code ZZ-9999 matches nobody in db0. -/
theorem C9_witness :
    findStudent db0 "ZZ-9999" = none ∧
    (login db0 "ZZ-9999" "dev1" =
        (db0, LoginResult.failure "Code matricule incorrect") ∧
      ("Code matricule incorrect" : String) ≠
        "Ce code est déjà lié à un autre téléphone.") :=
  ⟨by decide, C9_unknown_code_no_state_change db0 "ZZ-9999" "dev1" (by decide)⟩

/-- C10: GET /api/my-grades/:id is a pure read: whatever the student id and
the starting state, the state after the call is the starting state (all five
stores included). -/
theorem C10_fetch_view_is_pure (st : DB) (sid : Nat) :
    (fetchStudentView st sid).1 = st :=
  fetchStudentView_fst st sid

/-- The reachability invariant holds in every state the routes can produce:
first contact inserts PENDING rows without a message, approve clears the
message, reject sets a non-APPROVED status, reset and the view fetch keep or
drop rows unchanged. -/
theorem Inv_preserved (st : DB) (op : Op) (hinv : Inv st) :
    Inv (applyOp st op) := by
  cases op with
  | reset n =>
    intro r hr hst
    exact hinv r (List.mem_of_mem_filter hr) hst
  | fetchView n =>
    intro r hr hst
    simp only [applyOp] at hr
    rw [fetchStudentView_fst] at hr
    exact hinv r hr hst
  | approve n =>
    intro r hr hst
    simp only [applyOp] at hr
    unfold approve at hr
    rcases List.mem_map.mp hr with ⟨x, hx, hux⟩
    by_cases h : (x.student_id == n) = true
    · rw [← hux]
      simp [h]
    · rw [if_neg h] at hux
      subst hux
      exact hinv x hx hst
  | reject n reason =>
    intro r hr hst
    simp only [applyOp] at hr
    unfold reject at hr
    rcases List.mem_map.mp hr with ⟨x, hx, hux⟩
    by_cases h : (x.student_id == n) = true
    · rw [if_pos h] at hux
      rw [← hux] at hst
      cases hst
    · rw [if_neg h] at hux
      subst hux
      exact hinv x hx hst
  | login c d =>
    intro r hr hst
    simp only [applyOp] at hr
    unfold login at hr
    cases hstu : findStudent st c with
    | none =>
      rw [hstu] at hr
      exact hinv r hr hst
    | some s2 =>
      rw [hstu] at hr
      dsimp only at hr
      cases hreq : findRequest st s2.id with
      | some req =>
        rw [hreq, loginPhase2_some_fst] at hr
        exact hinv r hr hst
      | none =>
        rw [hreq] at hr
        unfold loginPhase2 at hr
        by_cases hany : (st.requests.any (fun x => x.student_id == s2.id)) = true
        · simp only [hany, if_true] at hr
          exact hinv r hr hst
        · simp only [hany, if_false, Bool.false_eq_true] at hr
          rcases List.mem_append.mp hr with h | h
          · exact hinv r h hst
          · rcases List.mem_singleton.mp h with rfl
            cases hst

/-- C5: reject(studentId, reason) overwrites any prior status with REJECTED
and stores the reason; a login from the bound device then reports REJECTED
with that reason, and the student view is locked, rejected, with the reason
as reject_reason. -/
theorem C5_reject_overwrites_and_propagates
    (st : DB) (s : Student) (r : AccessRequest) (reason : String)
    (hwf : st.WF) (hmem : s ∈ st.students)
    (hr : findRequest st s.id = some r) :
    findRequest (reject st s.id reason).1 s.id =
      some { r with status := Status.REJECTED, message := some reason } ∧
    login (reject st s.id reason).1 s.code r.device_id =
      ((reject st s.id reason).1,
        LoginResult.success ⟨s.id, s.name, s.code, Status.REJECTED,
          some reason⟩) ∧
    ∃ v, (fetchStudentView (reject st s.id reason).1 s.id).2 =
        ViewResult.view v ∧
      v.locked = true ∧ v.rejected = some true ∧
      v.reject_reason = some reason := by
  have hpr : (r.student_id == s.id) = true := by
    unfold findRequest at hr
    have h := List.find?_some hr
    simpa using h
  have hA : findRequest (reject st s.id reason).1 s.id =
      some { r with status := Status.REJECTED, message := some reason } := by
    rw [findRequest_reject, hr, Option.map_some', if_pos hpr]
  refine ⟨hA, ?_, ?_⟩
  · have hs1 : findStudent (reject st s.id reason).1 s.code = some s :=
      findStudent_eq hwf hmem
    unfold login
    rw [hs1]
    dsimp only
    rw [hA]
    unfold loginPhase2
    simp
  · have hsid1 : findStudentById (reject st s.id reason).1 s.id = some s :=
      findStudentById_eq hwf hmem
    unfold fetchStudentView
    rw [hA, hsid1]
    dsimp only
    exact ⟨_, rfl, rfl, rfl, rfl⟩

/-- C5 at a concrete input: rejecting Alice (previously APPROVED) for
"late payment". -/
theorem C5_witness :
    db2.WF ∧ alice ∈ db2.students ∧ findRequest db2 alice.id = some reqApproved ∧
    (findRequest (reject db2 alice.id "late payment").1 alice.id =
        some { reqApproved with
               status := Status.REJECTED,
               message := some "late payment" } ∧
      login (reject db2 alice.id "late payment").1 alice.code
          reqApproved.device_id =
        ((reject db2 alice.id "late payment").1,
          LoginResult.success ⟨alice.id, alice.name, alice.code,
            Status.REJECTED, some "late payment"⟩) ∧
      ∃ v, (fetchStudentView (reject db2 alice.id "late payment").1
              alice.id).2 = ViewResult.view v ∧
        v.locked = true ∧ v.rejected = some true ∧
        v.reject_reason = some "late payment") :=
  ⟨by decide, by decide, by decide,
   C5_reject_overwrites_and_propagates db2 alice reqApproved "late payment"
     (by decide) (by decide) (by decide)⟩

/-- C7: approve sets status=APPROVED and clears the message; a second
approve leaves the whole state identical to the state after the first; on a
reachable state (APPROVED rows carry no message) approving an already
APPROVED student changes nothing at all. -/
theorem C7_approve_idempotent (st : DB) (sid : Nat) (r : AccessRequest)
    (hwf : st.WF) (hr : findRequest st sid = some r) :
    findRequest (approve st sid).1 sid =
      some { r with status := Status.APPROVED, message := none } ∧
    approve (approve st sid).1 sid = approve st sid ∧
    (Inv st → r.status = Status.APPROVED → approve st sid = (st, true)) := by
  have hpr : (r.student_id == sid) = true := by
    unfold findRequest at hr
    have h := List.find?_some hr
    simpa using h
  refine ⟨?_, ?_, ?_⟩
  · rw [findRequest_approve, hr, Option.map_some', if_pos hpr]
  · unfold approve
    have hmaps : (st.requests.map (fun r =>
        if r.student_id == sid then
          { r with status := Status.APPROVED, message := none } else r)).map
          (fun r => if r.student_id == sid then
            { r with status := Status.APPROVED, message := none } else r) =
        st.requests.map (fun r => if r.student_id == sid then
          { r with status := Status.APPROVED, message := none } else r) := by
      rw [List.map_map]
      apply List.map_congr_left
      intro x _
      by_cases h : (x.student_id == sid) = true <;>
        simp [Function.comp, h]
    rw [hmaps]
  · intro hinv hst
    have hmem : r ∈ st.requests := List.mem_of_find?_eq_some hr
    have hmsg : r.message = none := hinv r hmem hst
    have hsid : r.student_id = sid := by simpa using hpr
    unfold approve
    rw [map_id_of_mem]
    intro x hx
    by_cases h : (x.student_id == sid) = true
    · have hx_eq : x = r :=
        request_unique_sid hwf hx hmem (by simp at h; rw [h, hsid])
      subst hx_eq
      simp only [h, if_true]
      rw [← hst, ← hmsg]
    · simp [h]

/-- C7 at a concrete input: approving Alice, already APPROVED with no
message, in db2. -/
theorem C7_witness :
    db2.WF ∧ findRequest db2 1 = some reqApproved ∧ Inv db2 ∧
    (findRequest (approve db2 1).1 1 =
        some { reqApproved with status := Status.APPROVED, message := none } ∧
      approve (approve db2 1).1 1 = approve db2 1 ∧
      (Inv db2 → reqApproved.status = Status.APPROVED →
        approve db2 1 = (db2, true))) :=
  ⟨by decide, by decide, by decide,
   C7_approve_idempotent db2 1 reqApproved (by decide) (by decide)⟩

/-- C4 counterexample: with no student of id 1 on file (yet a broadcast
notification present), GET /api/my-grades/1 answers the error object, not a
view carrying the notifications and absences lists — so the claim is false
for student ids that resolve to no student. -/
theorem C4_counterexample_missing_student :
    (fetchStudentView dbNoStudent 1).2 = ViewResult.error "Élève introuvable" := by
  decide

/-- C4 (amended to student ids that resolve to an existing student): the
view always carries the stored notifications and absences for the student
code; grades are the stored grades with locked=false exactly on APPROVED
status, otherwise grades is empty and locked=true; with no AccessRequest row
the view is locked and non-rejected. -/
theorem C4_view_gating (st : DB) (sid : Nat) (s : Student)
    (hs : findStudentById st sid = some s) :
    ∃ v, (fetchStudentView st sid).2 = ViewResult.view v ∧
      v.notifications = (st.notifications.filter
        (fun n => n.target_id == s.code || n.target_id == "ALL")).reverse ∧
      v.absences = st.absences.filter (fun a => a.student_id == s.code) ∧
      (∀ r, findRequest st sid = some r → r.status = Status.APPROVED →
        v.locked = false ∧
        v.grades = st.grades.filter (fun g => g.student_id == s.code)) ∧
      ((∀ r, findRequest st sid = some r → r.status ≠ Status.APPROVED) →
        v.locked = true ∧ v.grades = []) ∧
      (findRequest st sid = none → v.locked = true ∧ v.rejected = some false) := by
  rcases hacc : findRequest st sid with _ | r
  · have hres : (fetchStudentView st sid).2 = ViewResult.view ⟨true, some false,
        some "",
        (st.notifications.filter
          (fun n => n.target_id == s.code || n.target_id == "ALL")).reverse,
        st.absences.filter (fun a => a.student_id == s.code), []⟩ := by
      unfold fetchStudentView
      rw [hacc, hs]
      rfl
    exact ⟨_, hres, rfl, rfl,
      fun r0 h0 => Option.noConfusion h0,
      fun _ => ⟨rfl, rfl⟩, fun _ => ⟨rfl, rfl⟩⟩
  · by_cases hstat : r.status = Status.APPROVED
    · have hres : (fetchStudentView st sid).2 = ViewResult.view ⟨false, none,
          none,
          (st.notifications.filter
            (fun n => n.target_id == s.code || n.target_id == "ALL")).reverse,
          st.absences.filter (fun a => a.student_id == s.code),
          st.grades.filter (fun g => g.student_id == s.code)⟩ := by
        unfold fetchStudentView
        rw [hacc, hs]
        dsimp only
        simp [hstat]
      refine ⟨_, hres, rfl, rfl, fun r0 _ _ => ⟨rfl, rfl⟩, ?_, ?_⟩
      · intro h5
        exact absurd hstat (h5 r rfl)
      · intro h6
        cases h6
    · have hres : (fetchStudentView st sid).2 = ViewResult.view ⟨true,
          some (decide (r.status = Status.REJECTED)),
          some (r.message.getD ""),
          (st.notifications.filter
            (fun n => n.target_id == s.code || n.target_id == "ALL")).reverse,
          st.absences.filter (fun a => a.student_id == s.code), []⟩ := by
        unfold fetchStudentView
        rw [hacc, hs]
        dsimp only
        simp [hstat]
      refine ⟨_, hres, rfl, rfl, ?_, fun _ => ⟨rfl, rfl⟩, ?_⟩
      · intro r0 h0 hap
        injection h0 with h0
        subst h0
        exact absurd hap hstat
      · intro h6
        cases h6

/-- C4 amended claim at a concrete input: Alice in db2 (APPROVED). -/
theorem C4_witness :
    findStudentById db2 1 = some alice ∧
    (∃ v, (fetchStudentView db2 1).2 = ViewResult.view v ∧
      v.notifications = (db2.notifications.filter
        (fun n => n.target_id == alice.code || n.target_id == "ALL")).reverse ∧
      v.absences = db2.absences.filter (fun a => a.student_id == alice.code) ∧
      (∀ r, findRequest db2 1 = some r → r.status = Status.APPROVED →
        v.locked = false ∧
        v.grades = db2.grades.filter (fun g => g.student_id == alice.code)) ∧
      ((∀ r, findRequest db2 1 = some r → r.status ≠ Status.APPROVED) →
        v.locked = true ∧ v.grades = []) ∧
      (findRequest db2 1 = none → v.locked = true ∧ v.rejected = some false)) :=
  ⟨by decide, C4_view_gating db2 1 alice (by decide)⟩

/-- Every operation other than reset preserves the device binding of an
existing AccessRequest row. -/
theorem nonreset_preserves_device (st : DB) (op : Op) (sid : Nat)
    (r r' : AccessRequest)
    (hnr : ∀ n, op ≠ Op.reset n)
    (hfr : findRequest st sid = some r)
    (hfr' : findRequest (applyOp st op) sid = some r') :
    r'.device_id = r.device_id := by
  cases op with
  | reset n => exact absurd rfl (hnr n)
  | fetchView n =>
    simp only [applyOp] at hfr'
    rw [fetchStudentView_fst] at hfr'
    rw [hfr] at hfr'
    injection hfr' with h
    rw [← h]
  | approve n =>
    simp only [applyOp] at hfr'
    rw [findRequest_approve, hfr, Option.map_some'] at hfr'
    injection hfr' with h
    rw [← h]
    by_cases hm : (r.student_id == n) = true <;> simp [hm]
  | reject n reason =>
    simp only [applyOp] at hfr'
    rw [findRequest_reject, hfr, Option.map_some'] at hfr'
    injection hfr' with h
    rw [← h]
    by_cases hm : (r.student_id == n) = true <;> simp [hm]
  | login c d =>
    simp only [applyOp] at hfr'
    unfold login at hfr'
    cases hstu : findStudent st c with
    | none =>
      rw [hstu] at hfr'
      dsimp only at hfr'
      rw [hfr] at hfr'
      injection hfr' with h
      rw [← h]
    | some s2 =>
      rw [hstu] at hfr'
      dsimp only at hfr'
      cases hreq : findRequest st s2.id with
      | some req =>
        rw [hreq, loginPhase2_some_fst] at hfr'
        rw [hfr] at hfr'
        injection hfr' with h
        rw [← h]
      | none =>
        rw [hreq] at hfr'
        unfold loginPhase2 at hfr'
        by_cases hany : (st.requests.any (fun x => x.student_id == s2.id)) = true
        · simp only [hany, if_true] at hfr'
          rw [hfr] at hfr'
          injection hfr' with h
          rw [← h]
        · simp only [hany, if_false, Bool.false_eq_true] at hfr'
          unfold findRequest at hfr' hfr
          simp only at hfr'
          rw [List.find?_append, hfr] at hfr'
          injection hfr' with h
          rw [← h]

/-- C6: reset deletes the AccessRequest row; a subsequent login with the
student code from any device succeeds and creates a fresh PENDING binding to
that device; and reset is the only operation after which a different device
can become bound (all other operations preserve the stored device_id of an
existing row). -/
theorem C6_reset_releases_binding (st : DB) (s : Student) (D2 : String)
    (hwf : st.WF) (hmem : s ∈ st.students) :
    (reset st s.id).2 = true ∧
    (reset st s.id).1.requests =
      st.requests.filter (fun r => !(r.student_id == s.id)) ∧
    findRequest (reset st s.id).1 s.id = none ∧
    (login (reset st s.id).1 s.code D2).2 =
      LoginResult.success ⟨s.id, s.name, s.code, Status.PENDING, none⟩ ∧
    findRequest (login (reset st s.id).1 s.code D2).1 s.id =
      some ⟨s.id, D2, Status.PENDING, none, st.now⟩ ∧
    ∀ (st2 : DB) (op : Op) (sid2 : Nat) (r r' : AccessRequest),
      (∀ n, op ≠ Op.reset n) →
      findRequest st2 sid2 = some r →
      findRequest (applyOp st2 op) sid2 = some r' →
      r'.device_id = r.device_id := by
  have hs1 : findStudent (reset st s.id).1 s.code = some s :=
    findStudent_eq hwf hmem
  have hr1 : findRequest (reset st s.id).1 s.id = none :=
    findRequest_reset_self st s.id
  have hlog := login_fresh (reset st s.id).1 s.code D2 s hs1 hr1
  refine ⟨rfl, rfl, hr1, by rw [hlog], ?_,
    fun st2 op sid2 r r' hnr hfr hfr' =>
      nonreset_preserves_device st2 op sid2 r r' hnr hfr hfr'⟩
  rw [hlog]
  unfold findRequest at hr1 ⊢
  simp only
  rw [List.find?_append, hr1]
  simp
  rfl

/-- C6 at a concrete input: resetting Alice (bound PENDING to dev1 in db1),
then logging in from dev2. -/
theorem C6_witness :
    db1.WF ∧ alice ∈ db1.students ∧
    ((reset db1 alice.id).2 = true ∧
      (reset db1 alice.id).1.requests =
        db1.requests.filter (fun r => !(r.student_id == alice.id)) ∧
      findRequest (reset db1 alice.id).1 alice.id = none ∧
      (login (reset db1 alice.id).1 alice.code "dev2").2 =
        LoginResult.success ⟨alice.id, alice.name, alice.code,
          Status.PENDING, none⟩ ∧
      findRequest (login (reset db1 alice.id).1 alice.code "dev2").1 alice.id =
        some ⟨alice.id, "dev2", Status.PENDING, none, db1.now⟩ ∧
      ∀ (st2 : DB) (op : Op) (sid2 : Nat) (r r' : AccessRequest),
        (∀ n, op ≠ Op.reset n) →
        findRequest st2 sid2 = some r →
        findRequest (applyOp st2 op) sid2 = some r' →
        r'.device_id = r.device_id) :=
  ⟨by decide, by decide,
   C6_reset_releases_binding db1 alice "dev2" (by decide) (by decide)⟩

/-- C2: in the check-then-act interleaving where both first logins read the
empty access_requests table before either inserts, the winner creates the
single PENDING binding but the loser's INSERT hits the student_id PRIMARY
KEY and the route answers the 500 server error — not the DEVICE_MISMATCH
conflict the specification requires for the losing request.  (Exactly one
binding is created; the double-binding part of the claim does hold.) -/
theorem C2_race_loser_gets_server_error :
    concurrentFirstLogins db0 "AB-1234" "dev1" "dev2" =
      ({ db0 with requests := [⟨1, "dev1", Status.PENDING, none, 5⟩] },
        LoginResult.success ⟨1, "Alice", "AB-1234", Status.PENDING, none⟩,
        LoginResult.serverError) ∧
    LoginResult.serverError ≠
      LoginResult.failure "Ce code est déjà lié à un autre téléphone." := by
  constructor
  · decide
  · decide

end Madrassati
